import Mathlib

/-!
Shallow embedding of the tenant usage-metering and billing-cycle gate of
the `autoseo-service` repository (source of truth: `autoseo-service/models.py`).

Modelling conventions:
* Python `datetime` values are modelled at calendar-day granularity by
  `AutoSeo.Date` (year, month, day).  Every comparison the source performs on
  datetimes or on their ISO-8601 string forms is order-preserving at this
  granularity, and every period key the source derives is the `YYYY-MM`
  prefix, modelled as the pair (year, month).
* The SQLite store is modelled by `AutoSeo.State`: the `tenants` table as a
  list of rows, `usage_logs` and `billing_history` as append-ordered lists,
  `plans` as a list.  Each `execute_query` call in the source opens its own
  connection and commits before returning, so each SQL statement is one
  atomic store operation.
* `uuid.uuid4()` identifiers are modelled by a fresh-counter field `nextId`;
  no behaviour covered here depends on the identifier values themselves.
* Python exceptions (`datetime.replace` raising `ValueError`) are modelled
  with `Except`/`Option`: `.error s` carries the store state at the moment
  the exception escapes, because statements already executed have committed.
* SQL `REAL` plan rates hold the integer values 0, 5, 2 in the seeded
  catalog; they are modelled as `Nat`, which is exact for these values.
-/

namespace AutoSeo

/-- A calendar date (year, month, day), modelling a Python `datetime` at
day granularity. -/
structure Date where
  year : Nat
  month : Nat
  day : Nat
deriving DecidableEq

/-- Strict chronological (lexicographic) order on dates, matching both
Python `datetime` comparison and ISO-8601 string comparison. -/
def Date.lt (a b : Date) : Prop :=
  a.year < b.year ∨ (a.year = b.year ∧
    (a.month < b.month ∨ (a.month = b.month ∧ a.day < b.day)))

instance instDecidableDateLt : ∀ a b : Date, Decidable (Date.lt a b) :=
  fun a b => by unfold Date.lt; exact inferInstance

/-- `a ≤ b` on dates, as the negation of the strict order the other way. -/
def Date.le (a b : Date) : Prop := ¬ Date.lt b a

instance instDecidableDateLe : ∀ a b : Date, Decidable (Date.le a b) :=
  fun a b => by unfold Date.le; exact inferInstance

/-- Gregorian leap-year test (`calendar.isleap`). -/
def isLeap (y : Nat) : Prop := (y % 4 = 0 ∧ y % 100 ≠ 0) ∨ y % 400 = 0

instance instDecidableIsLeap : ∀ y, Decidable (isLeap y) :=
  fun y => by unfold isLeap; exact inferInstance

/-- Number of days in a month (`calendar.monthrange(year, month)[1]`). -/
def daysInMonth (y m : Nat) : Nat :=
  if m = 2 then (if isLeap y then 29 else 28)
  else if m = 4 ∨ m = 6 ∨ m = 9 ∨ m = 11 then 30
  else 31

/-- Days in the months of year `y` strictly before month `m`. -/
def daysBeforeMonth (y : Nat) : Nat → Nat
  | 0 => 0
  | m + 1 => daysBeforeMonth y m + (if m = 0 then 0 else daysInMonth y m)

/-- Proleptic-Gregorian day number of a date (Python `date.toordinal`):
day 1 is January 1 of year 1. -/
def toOrdinal (d : Date) : Nat :=
  365 * (d.year - 1) + (d.year - 1) / 4 + (d.year - 1) / 400
    - (d.year - 1) / 100 + daysBeforeMonth d.year d.month + d.day

/-- A structurally valid Gregorian date, i.e. one representable as a Python
`datetime` (which is the only kind the source ever stores or parses). -/
def ValidDate (d : Date) : Prop :=
  1 ≤ d.month ∧ d.month ≤ 12 ∧ 1 ≤ d.day ∧ d.day ≤ daysInMonth d.year d.month

instance instDecidableValidDate : ∀ d, Decidable (ValidDate d) :=
  fun d => by unfold ValidDate; exact inferInstance

/-- `get_next_billing_date` (models.py lines 167-185).  The monthly branch
adds one month, wrapping December, and clamps the day with
`min(start.day, last_day)`; the yearly branch is `start.replace(year+1)`,
which raises `ValueError` (modelled as `none`) when the resulting
year/month/day is not a real date (February 29 into a non-leap year). -/
def nextBillingDate (start : Date) (cycleType : String) : Option Date :=
  if cycleType = "monthly" then
    let m := start.month + 1
    let y := start.year
    let ym : Nat × Nat := if m > 12 then (y + 1, 1) else (y, m)
    let lastDay := daysInMonth ym.1 ym.2
    let day := min start.day lastDay
    -- `start.replace(...)` raises ValueError when day < 1
    if 1 ≤ day then some ⟨ym.1, ym.2, day⟩ else none
  else
    -- yearly: `start.replace(year=start.year + 1)` revalidates the date
    if 1 ≤ start.month ∧ start.month ≤ 12 ∧ 1 ≤ start.day ∧
        start.day ≤ daysInMonth (start.year + 1) start.month then
      some ⟨start.year + 1, start.month, start.day⟩
    else none

/-- The `YYYY-MM` billing-cycle key the source derives with `[:7]` on an
ISO string or with `strftime` (year, month). -/
def periodKey (d : Date) : Nat × Nat := (d.year, d.month)

/-- A row of the `tenants` table (columns used by the metering core). -/
structure Tenant where
  id : String
  name : String
  email : String
  apiKey : String
  planType : String
  billingCycle : String
  usageCount : Nat
  rateLimit : Nat
  createdAt : Date
  updatedAt : Option Date
  billingStart : Date
  billingEnd : Date
  lastReset : Date
  subscriptionStatus : String
deriving DecidableEq

/-- A row of the `usage_logs` table (a UsageEvent). -/
structure UsageLog where
  id : Nat
  tenantId : String
  action : String
  resource : Option String
  timestamp : Date
  billingCycle : Nat × Nat
deriving DecidableEq

/-- A row of the `billing_history` table (a BillingPeriodRecord); the
reconcile insert leaves `status` at its column default `pending`. -/
structure BillingRecord where
  id : Nat
  tenantId : String
  cycleStart : Date
  cycleEnd : Date
  usage : Nat
  overage : Nat
  status : String
  createdAt : Date
deriving DecidableEq

/-- A row of the `plans` table. -/
structure Plan where
  id : String
  name : String
  rateLimit : Nat
  priceMonthly : Nat
  priceYearly : Nat
  overageRate : Nat
deriving DecidableEq

/-- The persistent store: the SQLite database of models.py. -/
structure State where
  tenants : List Tenant
  usageLogs : List UsageLog
  billingHistory : List BillingRecord
  plans : List Plan
  nextId : Nat
deriving DecidableEq

instance instDecidableEqExcept {α β : Type} [DecidableEq α] [DecidableEq β] :
    DecidableEq (Except α β) := fun a b =>
  match a, b with
  | .ok x, .ok y =>
    if h : x = y then isTrue (by rw [h]) else isFalse (by intro hc; cases hc; exact h rfl)
  | .error x, .error y =>
    if h : x = y then isTrue (by rw [h]) else isFalse (by intro hc; cases hc; exact h rfl)
  | .ok _, .error _ => isFalse (by intro hc; cases hc)
  | .error _, .ok _ => isFalse (by intro hc; cases hc)

/-- A value in one of the dictionaries the source returns. -/
inductive Val where
  | s (v : String)
  | n (v : Nat)
  | i (v : Int)
  | d (v : Date)
deriving DecidableEq

/-- `get_tenant` (models.py lines 285-311): `SELECT ... WHERE id = ?` on the
primary key. -/
def getTenant (st : State) (tenantId : String) : Option Tenant :=
  st.tenants.find? (fun t => decide (t.id = tenantId))

/-- `UPDATE tenants SET ... WHERE id = ?`: rewrite every matching row. -/
def updateTenants (tenantId : String) (f : Tenant → Tenant) (st : State) :
    State :=
  { st with tenants := st.tenants.map (fun t => if t.id = tenantId then f t else t) }

/-- `get_current_billing_cycle` (lines 163-165): `now.strftime('%Y-%m')`. -/
def currentBillingCycle (now : Date) : Nat × Nat := periodKey now

/-- `get_cycle_usage` (lines 251-262) with an explicit cycle key:
`SELECT COUNT(*) FROM usage_logs WHERE tenant_id = ? AND billing_cycle = ?`. -/
def cycleUsage (st : State) (tenantId : String) (cycle : Nat × Nat) : Nat :=
  (st.usageLogs.filter
    (fun l => decide (l.tenantId = tenantId ∧ l.billingCycle = cycle))).length

/-- The `billing_history` insert of `check_and_reset_usage` (lines 224-230):
the archived record for the closing window, with
`overage = max(0, usage - rate_limit)` (Nat subtraction). -/
def archivedRecord (histId : Nat) (tenantId : String) (t : Tenant)
    (usage : Nat) (now : Date) : BillingRecord :=
  { id := histId, tenantId := tenantId, cycleStart := t.billingStart,
    cycleEnd := t.billingEnd, usage := usage, overage := usage - t.rateLimit,
    status := "pending", createdAt := now }

/-- Commit an insert into `billing_history` (one fresh id consumed). -/
def pushHistory (r : BillingRecord) (st : State) : State :=
  { st with billingHistory := st.billingHistory ++ [r],
            nextId := st.nextId + 1 }

/-- The tenant-row update of `check_and_reset_usage` (lines 237-242):
`SET billing_start = ?, billing_end = ?, last_reset = ?, usage_count = 0`. -/
def rolledTenant (newStart newEnd lastReset : Date) (u : Tenant) : Tenant :=
  { u with billingStart := newStart, billingEnd := newEnd,
           lastReset := lastReset, usageCount := 0 }

/-- The retention sweep at the end of `check_and_reset_usage` (lines
244-249): `DELETE FROM usage_logs WHERE tenant_id = ? AND timestamp < ?`
with `?` equal to `now - timedelta(days=90)` (ISO strings compare
chronologically, so the comparison is the day-number one). -/
def pruneOldLogs (tenantId : String) (now : Date) (st : State) : State :=
  let kept := st.usageLogs.filter
    (fun l => decide (¬ (l.tenantId = tenantId ∧
      (toOrdinal l.timestamp : Int) < (toOrdinal now : Int) - 90)))
  { st with usageLogs := kept }

/-- `check_and_reset_usage` (lines 200-249), the Billing Cycle Engine's
`reconcile`.  Rolls the window only when `now > billing_end` (strictly);
archives one `billing_history` row keyed on `billing_start[:7]`; starts the
new window at `now`; resets `usage_count`; prunes logs older than 90 days.
If `get_next_billing_date` raises (yearly advance landing on an invalid
date), the exception escapes as `.error` with the history insert already
committed and the tenant row untouched. -/
def checkAndResetUsage (now : Date) (tenantId : String) (st : State) :
    Except State State :=
  match getTenant st tenantId with
  | none => .ok st
  | some t =>
    if Date.lt t.billingEnd now then
      let cycle := periodKey t.billingStart
      let usage := cycleUsage st tenantId cycle
      let st1 := pushHistory (archivedRecord st.nextId tenantId t usage now) st
      match nextBillingDate now t.billingCycle with
      | none => .error st1
      | some newEnd =>
        let st2 := updateTenants tenantId (rolledTenant now newEnd now) st1
        .ok (pruneOldLogs tenantId now st2)
    else .ok st

/-- `log_usage` (lines 264-283), the Usage Ledger's `record`.  Note that the
period key is computed from the wall clock BEFORE the reconcile call, then
the event is appended and `usage_count` incremented. -/
def logUsage (tenantId action : String) (resource : Option String)
    (now : Date) (st : State) : Except State State :=
  let cycle := currentBillingCycle now
  match checkAndResetUsage now tenantId st with
  | .error st1 => .error st1
  | .ok st1 =>
    let log : UsageLog :=
      { id := st1.nextId, tenantId := tenantId, action := action,
        resource := resource, timestamp := now, billingCycle := cycle }
    let st2 : State :=
      { st1 with usageLogs := st1.usageLogs ++ [log], nextId := st1.nextId + 1 }
    .ok (updateTenants tenantId
      (fun t => { t with usageCount := t.usageCount + 1, updatedAt := some now })
      st2)

/-- `get_tenant_by_api_key` (lines 313-330): find by `api_key`, reconcile,
then re-read the (possibly updated) tenant row. -/
def getTenantByApiKey (apiKeyHash : String) (now : Date) (st : State) :
    Except State (Option Tenant × State) :=
  match st.tenants.find? (fun t => decide (t.apiKey = apiKeyHash)) with
  | none => .ok (none, st)
  | some t =>
    match checkAndResetUsage now t.id st with
    | .error st1 => .error st1
    | .ok st1 => .ok (getTenant st1 t.id, st1)

/-- `check_rate_limit` (lines 332-373), the Rate Gate's `check`.  Returns
`(allow, dict)` where the dict is modelled as the literal association list
of the Python dictionary.  It reads the stored tenant row directly and
performs no reconciliation. -/
def checkRateLimit (tenantId : String) (st : State) (now : Date) :
    Bool × List (String × Val) :=
  match getTenant st tenantId with
  | none => (false, [("error", .s "Tenant not found")])
  | some t =>
    if t.subscriptionStatus ≠ "active" then
      (false, [("error", .s "subscription_inactive"),
               ("status", .s t.subscriptionStatus)])
    else
      let usage := cycleUsage st tenantId (currentBillingCycle now)
      -- `(billing_end - now).days`
      let daysLeft : Int := (toOrdinal t.billingEnd : Int) - (toOrdinal now : Int)
      if t.rateLimit ≤ usage then
        (false, [("error", .s "rate_limit_exceeded"),
                 ("current_usage", .n usage),
                 ("limit", .n t.rateLimit),
                 ("overage", .n (usage - t.rateLimit)),
                 ("days_left", .i daysLeft),
                 ("billing_end", .d t.billingEnd),
                 ("message", .s ("Rate limit exceeded. You have used " ++
                   toString usage ++ "/" ++ toString t.rateLimit ++ " requests."))])
      else
        (true, [("current_usage", .n usage),
                ("limit", .n t.rateLimit),
                ("remaining", .n (t.rateLimit - usage)),
                ("days_left", .i daysLeft),
                ("billing_end", .d t.billingEnd)])

/-- `calculate_overage_charges` (lines 471-507), the Overage Calculator's
`charge`.  Returns `{}` for an unknown tenant, the two-key zeroed dict when
usage is within the limit, and the full dict otherwise, with
`overage_blocks = (overage + 99) // 100` and `charge = blocks * rate`. -/
def calcOverageCharges (st : State) (tenantId : String)
    (cycle : Option (Nat × Nat)) (now : Date) : List (String × Val) :=
  let cycle := cycle.getD (currentBillingCycle now)
  match getTenant st tenantId with
  | none => []
  | some t =>
    let usage := cycleUsage st tenantId cycle
    if usage ≤ t.rateLimit then
      [("overage", .n 0), ("charge", .n 0)]
    else
      let overage := usage - t.rateLimit
      let overageRate :=
        match st.plans.find? (fun p => decide (p.id = t.planType)) with
        | some p => p.overageRate
        | none => 0
      let overageBlocks := (overage + 99) / 100
      [("usage", .n usage),
       ("limit", .n t.rateLimit),
       ("overage", .n overage),
       ("overage_blocks", .n overageBlocks),
       ("rate_per_block", .n overageRate),
       ("total_charge", .n (overageBlocks * overageRate))]

/-- Project the store state out of a possibly-raising call: the state after
the statements that committed before the return or the escaping exception. -/
def stateOf (e : Except State State) : State :=
  match e with
  | .ok s => s
  | .error s => s

/-! ## Statement-level model of `check_and_reset_usage` for interleavings

Each `execute_query` in models.py opens its own SQLite connection and
commits before returning, so each SQL statement is one atomic transition
of the store and two concurrent invocations may interleave between
statements.  `check_and_reset_usage` performs two reads (the tenant row,
the cycle usage count) followed by up to three writes computed from those
snapshots. -/

/-- One write statement issued by `check_and_reset_usage`. -/
inductive StoreOp where
  | insertHistory (r : BillingRecord)
  | updateWindow (tenantId : String) (newStart newEnd lastReset : Date)
  | deleteOldLogs (tenantId : String) (now : Date)
deriving DecidableEq

/-- Apply one committed statement to the store. -/
def applyOp (st : State) (op : StoreOp) : State :=
  match op with
  | .insertHistory r => pushHistory r st
  | .updateWindow tid ns ne lr => updateTenants tid (rolledTenant ns ne lr) st
  | .deleteOldLogs tid now => pruneOldLogs tid now st

/-- Run a sequence of committed statements. -/
def runOps (st : State) (ops : List StoreOp) : State := ops.foldl applyOp st

/-- The write statements one `check_and_reset_usage` invocation issues, as a
function of the snapshots it read before writing: the tenant row `t` and
the ledger count `usage` for `t.billing_start`'s period key. -/
def reconcileWrites (t : Tenant) (tenantId : String) (usage : Nat)
    (histId : Nat) (now : Date) : List StoreOp :=
  if Date.lt t.billingEnd now then
    let hist := archivedRecord histId tenantId t usage now
    match nextBillingDate now t.billingCycle with
    | none => [.insertHistory hist]
    | some newEnd =>
      [.insertHistory hist, .updateWindow tenantId now newEnd now,
       .deleteOldLogs tenantId now]
  else []

/-- Two `check_and_reset_usage` invocations racing on the same tenant under
the schedule in which both perform their reads before either write lands
(nothing in models.py prevents this: there is no lock, no transaction
spanning read and write, and no conditional write). -/
def raceBothReadFirst (tenantId : String) (now : Date) (st : State) : State :=
  match getTenant st tenantId with
  | none => st
  | some t =>
    let usage := cycleUsage st tenantId (periodKey t.billingStart)
    runOps (runOps st (reconcileWrites t tenantId usage st.nextId now))
      (reconcileWrites t tenantId usage (st.nextId + 1) now)

/-- Two invocations run one after the other (serialized): the second starts
only after the first has fully finished. -/
def serializedTwice (tenantId : String) (now : Date) (st : State) : State :=
  stateOf (checkAndResetUsage now tenantId (stateOf (checkAndResetUsage now tenantId st)))

/-- Modelled from the spec, for the C6 refinement comparison only (spec 4.2:
the Rate Gate "calls Billing Cycle Engine `reconcile`, then compares the
ledger-confirmed current-cycle usage against `rate_limit`"): a variant of
`check` that reconciles the tenant first and decides on the updated store. -/
def checkRateLimitSpecReconciled (tenantId : String) (st : State)
    (now : Date) : Bool × List (String × Val) :=
  checkRateLimit tenantId (stateOf (checkAndResetUsage now tenantId st)) now

/-! ## Concrete store states for counterexamples and witnesses -/

/-- The plan catalog seeded by `init_db` (models.py lines 126-130). -/
def plansCatalog : List Plan :=
  [{ id := "free", name := "Free", rateLimit := 100, priceMonthly := 0,
     priceYearly := 0, overageRate := 0 },
   { id := "pro", name := "Pro", rateLimit := 1000, priceMonthly := 29,
     priceYearly := 290, overageRate := 5 },
   { id := "enterprise", name := "Enterprise", rateLimit := 10000,
     priceMonthly := 99, priceYearly := 990, overageRate := 2 }]

/-- A monthly free-plan tenant whose window is [2025-01-15, 2025-02-15). -/
def tenantStale : Tenant :=
  { id := "t1", name := "Acme", email := "ops@acme.example", apiKey := "k1",
    planType := "free", billingCycle := "monthly", usageCount := 0,
    rateLimit := 100, createdAt := ⟨2025, 1, 15⟩, updatedAt := none,
    billingStart := ⟨2025, 1, 15⟩, billingEnd := ⟨2025, 2, 15⟩,
    lastReset := ⟨2025, 1, 15⟩, subscriptionStatus := "active" }

/-- Store holding only `tenantStale`, with an empty ledger and history. -/
def stStale : State :=
  { tenants := [tenantStale], usageLogs := [], billingHistory := [],
    plans := plansCatalog, nextId := 0 }

/-- A yearly tenant whose window [2027-01-10, 2028-01-10) has expired. -/
def tenantYearly : Tenant :=
  { id := "t1", name := "Acme", email := "ops@acme.example", apiKey := "k1",
    planType := "free", billingCycle := "yearly", usageCount := 0,
    rateLimit := 100, createdAt := ⟨2027, 1, 10⟩, updatedAt := none,
    billingStart := ⟨2027, 1, 10⟩, billingEnd := ⟨2028, 1, 10⟩,
    lastReset := ⟨2027, 1, 10⟩, subscriptionStatus := "active" }

/-- Store holding only `tenantYearly`. -/
def stYearly : State :=
  { tenants := [tenantYearly], usageLogs := [], billingHistory := [],
    plans := plansCatalog, nextId := 0 }

/-- A monthly tenant in the middle of its window [2026-01-15, 2026-02-15). -/
def tenantMidCycle : Tenant :=
  { id := "t1", name := "Acme", email := "ops@acme.example", apiKey := "k1",
    planType := "free", billingCycle := "monthly", usageCount := 0,
    rateLimit := 100, createdAt := ⟨2026, 1, 15⟩, updatedAt := none,
    billingStart := ⟨2026, 1, 15⟩, billingEnd := ⟨2026, 2, 15⟩,
    lastReset := ⟨2026, 1, 15⟩, subscriptionStatus := "active" }

/-- Store holding only `tenantMidCycle`, with an empty ledger. -/
def stMidCycle : State :=
  { tenants := [tenantMidCycle], usageLogs := [], billingHistory := [],
    plans := plansCatalog, nextId := 0 }

/-- A free-plan tenant (limit 100) inside its window [2026-03-01, 2026-04-01). -/
def tenantMarch : Tenant :=
  { id := "t1", name := "Acme", email := "ops@acme.example", apiKey := "k1",
    planType := "free", billingCycle := "monthly", usageCount := 99,
    rateLimit := 100, createdAt := ⟨2026, 3, 1⟩, updatedAt := none,
    billingStart := ⟨2026, 3, 1⟩, billingEnd := ⟨2026, 4, 1⟩,
    lastReset := ⟨2026, 3, 1⟩, subscriptionStatus := "active" }

/-- A usage event recorded on 2026-03-10 and keyed to period 2026-03. -/
def marchLog : UsageLog :=
  { id := 0, tenantId := "t1", action := "audit", resource := none,
    timestamp := ⟨2026, 3, 10⟩, billingCycle := (2026, 3) }

/-- Store with `tenantMarch` and 99 events in the 2026-03 period. -/
def stNinetyNine : State :=
  { tenants := [tenantMarch], usageLogs := List.replicate 99 marchLog,
    billingHistory := [], plans := plansCatalog, nextId := 100 }

/-- A tenant whose window [2026-01-10, 2026-02-10) has expired. -/
def tenantExpiredFeb : Tenant :=
  { id := "t1", name := "Acme", email := "ops@acme.example", apiKey := "k1",
    planType := "free", billingCycle := "monthly", usageCount := 0,
    rateLimit := 100, createdAt := ⟨2026, 1, 10⟩, updatedAt := none,
    billingStart := ⟨2026, 1, 10⟩, billingEnd := ⟨2026, 2, 10⟩,
    lastReset := ⟨2026, 1, 10⟩, subscriptionStatus := "active" }

/-- Store holding only `tenantExpiredFeb`. -/
def stExpiredFeb : State :=
  { tenants := [tenantExpiredFeb], usageLogs := [], billingHistory := [],
    plans := plansCatalog, nextId := 0 }

/-- A tenant whose window ends exactly at 2025-05-10. -/
def tenantBoundary : Tenant :=
  { id := "t1", name := "Acme", email := "ops@acme.example", apiKey := "k1",
    planType := "free", billingCycle := "monthly", usageCount := 0,
    rateLimit := 100, createdAt := ⟨2025, 4, 10⟩, updatedAt := none,
    billingStart := ⟨2025, 4, 10⟩, billingEnd := ⟨2025, 5, 10⟩,
    lastReset := ⟨2025, 4, 10⟩, subscriptionStatus := "active" }

/-- Store holding only `tenantBoundary`. -/
def stBoundary : State :=
  { tenants := [tenantBoundary], usageLogs := [], billingHistory := [],
    plans := plansCatalog, nextId := 0 }

/-- A pro-plan tenant with `rate_limit` 100, window [2026-03-01, 2026-04-01). -/
def tenantPro : Tenant :=
  { id := "t1", name := "Acme", email := "ops@acme.example", apiKey := "k1",
    planType := "pro", billingCycle := "monthly", usageCount := 250,
    rateLimit := 100, createdAt := ⟨2026, 3, 1⟩, updatedAt := none,
    billingStart := ⟨2026, 3, 1⟩, billingEnd := ⟨2026, 4, 1⟩,
    lastReset := ⟨2026, 3, 1⟩, subscriptionStatus := "active" }

/-- Store with `tenantPro` and 250 events in the 2026-03 period. -/
def stOverage : State :=
  { tenants := [tenantPro], usageLogs := List.replicate 250 marchLog,
    billingHistory := [], plans := plansCatalog, nextId := 300 }

/-! ## Helper lemmas -/

theorem dateLt_asymm (a b : Date) (h : Date.lt a b) : ¬ Date.lt b a := by
  unfold Date.lt at *; omega

theorem dateLt_irrefl (a : Date) : ¬ Date.lt a a := by
  unfold Date.lt; omega

theorem dateLe_refl (a : Date) : Date.le a a := dateLt_irrefl a

theorem dateLe_of_lt (a b : Date) (h : Date.lt a b) : Date.le a b :=
  dateLt_asymm a b h

theorem daysInMonth_pos (y m : Nat) : 28 ≤ daysInMonth y m := by
  unfold daysInMonth
  split
  · split <;> omega
  · split <;> omega

/-- Whenever `get_next_billing_date` returns, the returned date is strictly
later than its argument (the month or the year strictly increases). -/
theorem lt_nextBillingDate (start : Date) (ct : String) (e : Date)
    (h : nextBillingDate start ct = some e) : Date.lt start e := by
  unfold nextBillingDate at h
  by_cases hm : ct = "monthly"
  · rw [if_pos hm] at h
    simp only at h
    by_cases h12 : start.month + 1 > 12
    · rw [if_pos h12] at h
      split at h
      · cases h
        simp [Date.lt]
      · cases h
    · rw [if_neg h12] at h
      split at h
      · cases h
        simp [Date.lt]
      · cases h
  · rw [if_neg hm] at h
    split at h
    · cases h
      simp [Date.lt]
    · cases h

theorem getTenant_pushHistory (r : BillingRecord) (st : State) (tid : String) :
    getTenant (pushHistory r st) tid = getTenant st tid := rfl

theorem getTenant_pruneOldLogs (tid2 : String) (now : Date) (st : State)
    (tid : String) :
    getTenant (pruneOldLogs tid2 now st) tid = getTenant st tid := rfl

theorem billingHistory_pruneOldLogs (tid : String) (now : Date) (st : State) :
    (pruneOldLogs tid now st).billingHistory = st.billingHistory := rfl

theorem billingHistory_updateTenants (tid : String) (f : Tenant → Tenant)
    (st : State) :
    (updateTenants tid f st).billingHistory = st.billingHistory := rfl

theorem billingHistory_pushHistory (r : BillingRecord) (st : State) :
    (pushHistory r st).billingHistory = st.billingHistory ++ [r] := rfl

/-- An `UPDATE tenants ... WHERE id = ?` that does not change `id` turns the
row `get_tenant` returns into its updated image. -/
theorem getTenant_updateTenants (st : State) (tid : String)
    (f : Tenant → Tenant) (t : Tenant) (hf : ∀ u, (f u).id = u.id)
    (h : getTenant st tid = some t) :
    getTenant (updateTenants tid f st) tid = some (f t) := by
  have ht : t.id = tid := by
    have := List.find?_some h
    simpa using this
  unfold getTenant updateTenants at *
  simp only
  rw [List.find?_map]
  have hp : ((fun u : Tenant => decide (u.id = tid)) ∘
      (fun u : Tenant => if u.id = tid then f u else u)) =
      (fun u : Tenant => decide (u.id = tid)) := by
    funext u
    by_cases hu : u.id = tid
    · simp [hu, hf]
    · simp [hu]
  rw [hp, h]
  simp [if_pos ht]

theorem daysInMonth_feb (y : Nat) :
    daysInMonth y 2 = if isLeap y then 29 else 28 := by
  unfold daysInMonth
  rw [if_pos rfl]

theorem usageLogs_updateTenants (tid : String) (f : Tenant → Tenant)
    (st : State) : (updateTenants tid f st).usageLogs = st.usageLogs := rfl

/-- `check_and_reset_usage` on an unknown tenant id returns with no writes. -/
theorem checkAndReset_notFound (now : Date) (tid : String) (st : State)
    (h : getTenant st tid = none) :
    checkAndResetUsage now tid st = .ok st := by
  unfold checkAndResetUsage
  rw [h]

/-- `check_and_reset_usage` is a no-op unless `now > billing_end` strictly. -/
theorem checkAndReset_noop (now : Date) (tid : String) (st : State)
    (t : Tenant) (hT : getTenant st tid = some t)
    (h : ¬ Date.lt t.billingEnd now) :
    checkAndResetUsage now tid st = .ok st := by
  unfold checkAndResetUsage
  rw [hT]
  simp [h]

/-- The expired branch of `check_and_reset_usage` when the cycle advance
succeeds: archive one record, roll the window, prune old logs. -/
theorem checkAndReset_roll (now : Date) (tid : String) (st : State)
    (t : Tenant) (newEnd : Date) (hT : getTenant st tid = some t)
    (hexp : Date.lt t.billingEnd now)
    (hadv : nextBillingDate now t.billingCycle = some newEnd) :
    checkAndResetUsage now tid st = .ok (pruneOldLogs tid now
      (updateTenants tid (rolledTenant now newEnd now)
        (pushHistory (archivedRecord st.nextId tid t
          (cycleUsage st tid (periodKey t.billingStart)) now) st))) := by
  unfold checkAndResetUsage
  rw [hT]
  simp only [if_pos hexp, hadv]

/-- The expired branch of `check_and_reset_usage` when the cycle advance
raises `ValueError`: the history insert has already committed, the tenant
row is untouched, and the exception escapes. -/
theorem checkAndReset_raise (now : Date) (tid : String) (st : State)
    (t : Tenant) (hT : getTenant st tid = some t)
    (hexp : Date.lt t.billingEnd now)
    (hadv : nextBillingDate now t.billingCycle = none) :
    checkAndResetUsage now tid st = .error
      (pushHistory (archivedRecord st.nextId tid t
        (cycleUsage st tid (periodKey t.billingStart)) now) st) := by
  unfold checkAndResetUsage
  rw [hT]
  simp only [if_pos hexp, hadv]

/-- After a `check_and_reset_usage` call that returned normally, an
immediate second call with the same clock is a no-op, and at most one
billing-history record was appended in total. -/
theorem checkAndReset_iterate (now : Date) (tid : String) (st st' : State)
    (hok : checkAndResetUsage now tid st = .ok st') :
    checkAndResetUsage now tid st' = .ok st' ∧
      st'.billingHistory.length ≤ st.billingHistory.length + 1 := by
  cases hG : getTenant st tid with
  | none =>
    rw [checkAndReset_notFound now tid st hG] at hok
    cases hok
    exact ⟨checkAndReset_notFound now tid st hG, by omega⟩
  | some t =>
    by_cases hexp : Date.lt t.billingEnd now
    · cases hadv : nextBillingDate now t.billingCycle with
      | none =>
        rw [checkAndReset_raise now tid st t hG hexp hadv] at hok
        cases hok
      | some ne =>
        rw [checkAndReset_roll now tid st t ne hG hexp hadv] at hok
        cases hok
        have hT' : getTenant (pruneOldLogs tid now
            (updateTenants tid (rolledTenant now ne now)
              (pushHistory (archivedRecord st.nextId tid t
                (cycleUsage st tid (periodKey t.billingStart)) now) st))) tid =
            some (rolledTenant now ne now t) := by
          rw [getTenant_pruneOldLogs]
          exact getTenant_updateTenants _ tid _ t (fun u => rfl)
            (by rw [getTenant_pushHistory]; exact hG)
        constructor
        · refine checkAndReset_noop now tid _ _ hT' ?_
          have hlt : Date.lt now ne := lt_nextBillingDate now t.billingCycle ne hadv
          exact dateLt_asymm now ne hlt
        · simp [billingHistory_pruneOldLogs, billingHistory_updateTenants,
            billingHistory_pushHistory]
    · rw [checkAndReset_noop now tid st t hG hexp] at hok
      cases hok
      exact ⟨checkAndReset_noop now tid st t hG hexp, by omega⟩

/-! ## Claims -/

/-- C1 counterexample: with the window [2025-01-15, 2025-02-15) expired and
`now = 2025-04-20` more than one full cycle past `cycle_end` (the advanced
cycle end 2025-03-15 is also in the past) and zero usage in between, a
single `check_and_reset_usage` call appends exactly ONE billing-history
record, not one per missed cycle: there is no internal loop. -/
theorem c1_counterexample :
    Date.lt tenantStale.billingEnd ⟨2025, 4, 20⟩ ∧
    nextBillingDate tenantStale.billingEnd tenantStale.billingCycle =
      some ⟨2025, 3, 15⟩ ∧
    Date.lt ⟨2025, 3, 15⟩ ⟨2025, 4, 20⟩ ∧
    (stateOf (checkAndResetUsage ⟨2025, 4, 20⟩ "t1" stStale)).billingHistory.length = 1 := by
  decide

/-- C1 (amended): for every tenant with an expired window whose cycle
advance succeeds, one `reconcile` call appends exactly one
BillingPeriodRecord — covering the single stale window
[cycle_start, cycle_end), however many cycles have elapsed — and jumps the
window to [now, advance(now)), which satisfies
`cycle_start <= now < cycle_end`; no record is written for intermediate
missed cycles and no internal loop exists. -/
theorem c1_amended (st st' : State) (tid : String) (t : Tenant) (now ne : Date)
    (hT : getTenant st tid = some t) (hexp : Date.lt t.billingEnd now)
    (hadv : nextBillingDate now t.billingCycle = some ne)
    (hok : checkAndResetUsage now tid st = .ok st') :
    st'.billingHistory = st.billingHistory ++
      [archivedRecord st.nextId tid t
        (cycleUsage st tid (periodKey t.billingStart)) now] ∧
    getTenant st' tid = some (rolledTenant now ne now t) ∧
    Date.le (rolledTenant now ne now t).billingStart now ∧
    Date.lt now (rolledTenant now ne now t).billingEnd := by
  rw [checkAndReset_roll now tid st t ne hT hexp hadv] at hok
  cases hok
  refine ⟨?_, ?_, ?_, ?_⟩
  · rw [billingHistory_pruneOldLogs, billingHistory_updateTenants,
      billingHistory_pushHistory]
  · rw [getTenant_pruneOldLogs]
    exact getTenant_updateTenants _ tid _ t (fun u => rfl)
      (by rw [getTenant_pushHistory]; exact hT)
  · exact dateLe_refl now
  · exact lt_nextBillingDate now t.billingCycle ne hadv

/-- C1 witness: the amended theorem applied to the two-cycles-stale store. -/
theorem c1_amended_witness :
    Date.lt tenantStale.billingEnd ⟨2025, 4, 20⟩ ∧
    getTenant (stateOf (checkAndResetUsage ⟨2025, 4, 20⟩ "t1" stStale)) "t1" =
      some (rolledTenant ⟨2025, 4, 20⟩ ⟨2025, 5, 20⟩ ⟨2025, 4, 20⟩ tenantStale) :=
  ⟨by decide,
    (c1_amended stStale (stateOf (checkAndResetUsage ⟨2025, 4, 20⟩ "t1" stStale))
      "t1" tenantStale ⟨2025, 4, 20⟩ ⟨2025, 5, 20⟩ rfl (by decide) rfl rfl).2.1⟩

/-- C2 counterexample: for a yearly tenant whose expired window is closed on
February 29 of a leap year, `get_next_billing_date` raises `ValueError`
after the history insert has committed, so the window never advances and
two successive `reconcile` calls append TWO billing-history records (the
claim allows at most one) while the tenant row stays unchanged. -/
theorem c2_counterexample :
    (serializedTwice "t1" ⟨2028, 2, 29⟩ stYearly).billingHistory.length = 2 ∧
    stYearly.billingHistory.length = 0 ∧
    getTenant (serializedTwice "t1" ⟨2028, 2, 29⟩ stYearly) "t1" =
      some tenantYearly := by
  decide

/-- C2 (amended): `reconcile` is a no-op returning the store unchanged
whenever `now < cycle_end` (indeed whenever `now <= cycle_end`), and after
any `reconcile` call that RETURNS NORMALLY an immediate second call is a
no-op, so two successive calls yield the same window and append at most one
BillingPeriodRecord; when the cycle advance raises (a yearly tenant closed
on February 29), each successive call appends another record instead. -/
theorem c2_amended (st : State) (tid : String) (now : Date) :
    (∀ t, getTenant st tid = some t → Date.lt now t.billingEnd →
      checkAndResetUsage now tid st = .ok st) ∧
    (∀ st', checkAndResetUsage now tid st = .ok st' →
      checkAndResetUsage now tid st' = .ok st' ∧
        st'.billingHistory.length ≤ st.billingHistory.length + 1) := by
  constructor
  · intro t hT hlt
    exact checkAndReset_noop now tid st t hT (dateLt_asymm now t.billingEnd hlt)
  · intro st' hok
    exact checkAndReset_iterate now tid st st' hok

/-- C2 witness: the no-op half on a mid-cycle tenant, and the
twice-in-succession half on the stale store. -/
theorem c2_amended_witness :
    checkAndResetUsage ⟨2026, 2, 10⟩ "t1" stMidCycle = .ok stMidCycle ∧
    checkAndResetUsage ⟨2025, 4, 20⟩ "t1"
        (stateOf (checkAndResetUsage ⟨2025, 4, 20⟩ "t1" stStale)) =
      .ok (stateOf (checkAndResetUsage ⟨2025, 4, 20⟩ "t1" stStale)) :=
  ⟨(c2_amended stMidCycle "t1" ⟨2026, 2, 10⟩).1 tenantMidCycle rfl (by decide),
   ((c2_amended stStale "t1" ⟨2025, 4, 20⟩).2
      (stateOf (checkAndResetUsage ⟨2025, 4, 20⟩ "t1" stStale)) rfl).1⟩

/-- C3 counterexample: two `check_and_reset_usage` invocations racing on the
same expired tenant, under the schedule in which both read the tenant row
and the usage count before either write commits (possible because every
`execute_query` is its own autocommitting connection and there is no lock
or conditional write), BOTH append a BillingPeriodRecord: the history grows
by two, not at most one. -/
theorem c3_counterexample :
    (raceBothReadFirst "t1" ⟨2025, 4, 20⟩ stStale).billingHistory.length = 2 ∧
    ¬ (raceBothReadFirst "t1" ⟨2025, 4, 20⟩ stStale).billingHistory.length ≤
        stStale.billingHistory.length + 1 := by
  decide

/-- C3 (amended): the code has no per-tenant mutual exclusion and no
compare-and-swap write; for every expired tenant whose advance succeeds,
the both-read-first interleaving of two racing reconciles appends exactly
two BillingPeriodRecords (each invocation also resets the counter), while
at most one record is appended only when the two invocations are
serialized, the second then observing the advanced window and no-opping. -/
theorem c3_amended (st : State) (tid : String) (t : Tenant) (now ne : Date)
    (hT : getTenant st tid = some t) (hexp : Date.lt t.billingEnd now)
    (hadv : nextBillingDate now t.billingCycle = some ne) :
    (raceBothReadFirst tid now st).billingHistory.length =
        st.billingHistory.length + 2 ∧
    (serializedTwice tid now st).billingHistory.length =
        st.billingHistory.length + 1 := by
  constructor
  · unfold raceBothReadFirst
    rw [hT]
    simp only [reconcileWrites, if_pos hexp, hadv, runOps, List.foldl, applyOp]
    simp [billingHistory_pruneOldLogs, billingHistory_updateTenants,
      billingHistory_pushHistory, pushHistory, pruneOldLogs, updateTenants]
  · unfold serializedTwice
    have h1 := checkAndReset_roll now tid st t ne hT hexp hadv
    have hit := checkAndReset_iterate now tid st _ h1
    rw [h1]
    simp only [stateOf]
    rw [hit.1]
    simp only [stateOf]
    simp [billingHistory_pruneOldLogs, billingHistory_updateTenants,
      billingHistory_pushHistory]

/-- C3 witness: the amended theorem applied to the stale store. -/
theorem c3_amended_witness :
    (raceBothReadFirst "t1" ⟨2025, 4, 20⟩ stStale).billingHistory.length =
        stStale.billingHistory.length + 2 ∧
    (serializedTwice "t1" ⟨2025, 4, 20⟩ stStale).billingHistory.length =
        stStale.billingHistory.length + 1 :=
  c3_amended stStale "t1" tenantStale ⟨2025, 4, 20⟩ ⟨2025, 5, 20⟩ rfl
    (by decide) rfl

/-- C4 counterexample: recording on 2026-02-10 for a tenant whose current
(post-reconciliation: the reconcile is a no-op here) cycle started
2026-01-15 tags the event with the wall-clock key (2026, 2), not with the
key (2026, 1) derived from `cycle_start`; consequently when the cycle
closes on 2026-02-16, the ledger query keyed on `cycle_start`'s month
archives usage 0 even though one event was recorded during the cycle. -/
theorem c4_counterexample :
    checkAndResetUsage ⟨2026, 2, 10⟩ "t1" stMidCycle = .ok stMidCycle ∧
    periodKey tenantMidCycle.billingStart = (2026, 1) ∧
    (stateOf (logUsage "t1" "audit" none ⟨2026, 2, 10⟩ stMidCycle)).usageLogs =
      [{ id := 0, tenantId := "t1", action := "audit", resource := none,
         timestamp := ⟨2026, 2, 10⟩, billingCycle := (2026, 2) }] ∧
    ((2026, 2) : Nat × Nat) ≠ (2026, 1) ∧
    (stateOf (checkAndResetUsage ⟨2026, 2, 16⟩ "t1"
        (stateOf (logUsage "t1" "audit" none ⟨2026, 2, 10⟩ stMidCycle)))).billingHistory =
      [{ id := 1, tenantId := "t1", cycleStart := ⟨2026, 1, 15⟩,
         cycleEnd := ⟨2026, 2, 15⟩, usage := 0, overage := 0,
         status := "pending", createdAt := ⟨2026, 2, 16⟩ }] := by
  decide

/-- C4 (amended): every successfully recorded UsageEvent is tagged with the
period key derived from the wall-clock `now` (its year-month), computed
before the reconcile call — not with the key derived from the tenant's
`cycle_start` — so reconcile's close-out query, which scans the key derived
from `cycle_start`, only counts the events whose wall-clock month equals
`cycle_start`'s month. -/
theorem c4_amended (st st' : State) (tid a : String) (r : Option String)
    (now : Date) (hok : logUsage tid a r now st = .ok st') :
    (st'.usageLogs.getLast?).map
        (fun l => (l.tenantId, l.action, l.resource, l.timestamp, l.billingCycle)) =
      some (tid, a, r, now, currentBillingCycle now) := by
  unfold logUsage at hok
  cases hrec : checkAndResetUsage now tid st with
  | error st1 =>
    rw [hrec] at hok
    cases hok
  | ok st1 =>
    rw [hrec] at hok
    simp only at hok
    cases hok
    rw [usageLogs_updateTenants]
    show ((st1.usageLogs ++ [_]).getLast?).map _ = _
    rw [List.getLast?_concat]
    rfl

/-- C4 witness: the amended theorem applied to the mid-cycle store. -/
theorem c4_amended_witness :
    ((stateOf (logUsage "t1" "audit" none ⟨2026, 2, 10⟩ stMidCycle)).usageLogs.getLast?).map
        (fun l => (l.tenantId, l.action, l.resource, l.timestamp, l.billingCycle)) =
      some ("t1", "audit", none, ⟨2026, 2, 10⟩, currentBillingCycle ⟨2026, 2, 10⟩) :=
  c4_amended stMidCycle (stateOf (logUsage "t1" "audit" none ⟨2026, 2, 10⟩ stMidCycle))
    "t1" "audit" none ⟨2026, 2, 10⟩ rfl

/-- C5 counterexample: on the free plan (limit 100) with 99 recorded events
`check` allows with remaining 1; after one more `record` it denies with
reason `rate_limit_exceeded` — but the deny dictionary carries no
`remaining` key at all (it carries `overage` instead), contrary to the
claimed `remaining=0` diagnostic. -/
theorem c5_counterexample :
    (checkRateLimit "t1" stNinetyNine ⟨2026, 3, 20⟩).1 = true ∧
    List.lookup "remaining" (checkRateLimit "t1" stNinetyNine ⟨2026, 3, 20⟩).2 =
      some (.n 1) ∧
    (checkRateLimit "t1"
        (stateOf (logUsage "t1" "audit" none ⟨2026, 3, 20⟩ stNinetyNine))
        ⟨2026, 3, 20⟩).1 = false ∧
    List.lookup "error" (checkRateLimit "t1"
        (stateOf (logUsage "t1" "audit" none ⟨2026, 3, 20⟩ stNinetyNine))
        ⟨2026, 3, 20⟩).2 = some (.s "rate_limit_exceeded") ∧
    List.lookup "remaining" (checkRateLimit "t1"
        (stateOf (logUsage "t1" "audit" none ⟨2026, 3, 20⟩ stNinetyNine))
        ⟨2026, 3, 20⟩).2 = none := by
  decide

/-- C5 (amended): for every existing active tenant, `check` allows exactly
when the ledger count for the current wall-clock period key is strictly
below `rate_limit`; an allow carries usage, limit, remaining and days_left,
while a deny carries reason `rate_limit_exceeded` with usage, limit,
`overage = usage - limit` and days_left but no `remaining` field. -/
theorem c5_amended (st : State) (tid : String) (t : Tenant) (now : Date)
    (hT : getTenant st tid = some t) (hA : t.subscriptionStatus = "active") :
    ((checkRateLimit tid st now).1 = true ↔
      cycleUsage st tid (currentBillingCycle now) < t.rateLimit) ∧
    (cycleUsage st tid (currentBillingCycle now) < t.rateLimit →
      checkRateLimit tid st now = (true,
        [("current_usage", .n (cycleUsage st tid (currentBillingCycle now))),
         ("limit", .n t.rateLimit),
         ("remaining", .n (t.rateLimit - cycleUsage st tid (currentBillingCycle now))),
         ("days_left", .i ((toOrdinal t.billingEnd : Int) - (toOrdinal now : Int))),
         ("billing_end", .d t.billingEnd)])) ∧
    (t.rateLimit ≤ cycleUsage st tid (currentBillingCycle now) →
      (checkRateLimit tid st now).1 = false ∧
      List.lookup "error" (checkRateLimit tid st now).2 =
        some (.s "rate_limit_exceeded") ∧
      List.lookup "overage" (checkRateLimit tid st now).2 =
        some (.n (cycleUsage st tid (currentBillingCycle now) - t.rateLimit)) ∧
      List.lookup "remaining" (checkRateLimit tid st now).2 = none) := by
  have hna : ¬ (t.subscriptionStatus ≠ "active") := by simp [hA]
  unfold checkRateLimit
  rw [hT]
  simp only [if_neg hna]
  by_cases hlim : t.rateLimit ≤ cycleUsage st tid (currentBillingCycle now)
  · simp only [if_pos hlim]
    refine ⟨by simp; omega, by intro h; omega, fun _ => ⟨by trivial, ?_, ?_, ?_⟩⟩
    · trivial
    · trivial
    · trivial
  · simp only [if_neg hlim]
    refine ⟨by simp; omega, fun _ => by trivial, by intro h; omega⟩

/-- C5 witness: the amended theorem applied to the 99-events store. -/
theorem c5_amended_witness :
    (checkRateLimit "t1" stNinetyNine ⟨2026, 3, 20⟩).1 = true ↔
      cycleUsage stNinetyNine "t1" (currentBillingCycle ⟨2026, 3, 20⟩) <
        tenantMarch.rateLimit :=
  (c5_amended stNinetyNine "t1" tenantMarch ⟨2026, 3, 20⟩ rfl rfl).1

/-- C6 counterexample: `check_rate_limit` called directly with a tenant id
does NOT reconcile: on a tenant whose window [2026-01-10, 2026-02-10)
expired weeks ago it reports `days_left = -23` against the stale window,
whereas the spec-modelled reconcile-first variant reports `days_left = 31`
against the freshly rolled window — the two disagree. -/
theorem c6_counterexample :
    List.lookup "days_left" (checkRateLimit "t1" stExpiredFeb ⟨2026, 3, 5⟩).2 =
      some (.i (-23)) ∧
    List.lookup "days_left"
        (checkRateLimitSpecReconciled "t1" stExpiredFeb ⟨2026, 3, 5⟩).2 =
      some (.i 31) ∧
    checkRateLimit "t1" stExpiredFeb ⟨2026, 3, 5⟩ ≠
      checkRateLimitSpecReconciled "t1" stExpiredFeb ⟨2026, 3, 5⟩ := by
  decide

/-- C6 (amended): `check_rate_limit` itself never invokes the Billing Cycle
Engine: its decision quotes the STORED tenant row (its `billing_end`
verbatim, possibly expired); reconciliation happens only on the API-key
lookup path, `get_tenant_by_api_key`, which reconciles before returning the
tenant, so only tenants obtained that way satisfy `now <= cycle_end`. -/
theorem c6_amended :
    (∀ (st : State) (tid : String) (t : Tenant) (now : Date),
      getTenant st tid = some t → t.subscriptionStatus = "active" →
      List.lookup "billing_end" (checkRateLimit tid st now).2 =
        some (.d t.billingEnd)) ∧
    (∀ (st st1 : State) (key : String) (now : Date) (t' : Tenant),
      getTenantByApiKey key now st = .ok (some t', st1) →
      Date.le now t'.billingEnd) := by
  constructor
  · intro st tid t now hT hA
    have hna : ¬ (t.subscriptionStatus ≠ "active") := by simp [hA]
    unfold checkRateLimit
    rw [hT]
    simp only [if_neg hna]
    by_cases hlim : t.rateLimit ≤ cycleUsage st tid (currentBillingCycle now)
    · simp only [if_pos hlim]
      trivial
    · simp only [if_neg hlim]
      trivial
  · intro st st1 key now t' hok
    unfold getTenantByApiKey at hok
    cases hfind : st.tenants.find? (fun u => decide (u.apiKey = key)) with
    | none =>
      rw [hfind] at hok
      simp at hok
    | some t0 =>
      rw [hfind] at hok
      simp only at hok
      cases hrec : checkAndResetUsage now t0.id st with
      | error st2 =>
        rw [hrec] at hok
        cases hok
      | ok st2 =>
        rw [hrec] at hok
        simp only at hok
        injection hok with h
        rw [Prod.mk.injEq] at h
        obtain ⟨hget, hst⟩ := h
        cases hG : getTenant st t0.id with
        | none =>
          rw [checkAndReset_notFound now t0.id st hG] at hrec
          injection hrec with h2
          subst h2
          rw [hG] at hget
          cases hget
        | some u =>
          by_cases hexp : Date.lt u.billingEnd now
          · cases hadv : nextBillingDate now u.billingCycle with
            | none =>
              rw [checkAndReset_raise now t0.id st u hG hexp hadv] at hrec
              cases hrec
            | some ne =>
              rw [checkAndReset_roll now t0.id st u ne hG hexp hadv] at hrec
              injection hrec with h2
              rw [← h2] at hget
              rw [getTenant_pruneOldLogs] at hget
              rw [getTenant_updateTenants
                (pushHistory (archivedRecord st.nextId t0.id u
                  (cycleUsage st t0.id (periodKey u.billingStart)) now) st)
                t0.id (rolledTenant now ne now) u (fun v => rfl)
                (by rw [getTenant_pushHistory]; exact hG)] at hget
              injection hget with h3
              subst h3
              exact dateLe_of_lt now ne (lt_nextBillingDate now u.billingCycle ne hadv)
          · rw [checkAndReset_noop now t0.id st u hG hexp] at hrec
            injection hrec with h2
            subst h2
            rw [hG] at hget
            injection hget with h2
            subst h2
            exact hexp

/-- C6 witness: the stored-row half on the 99-events store and the
API-key-path half on the expired store. -/
theorem c6_amended_witness :
    List.lookup "billing_end" (checkRateLimit "t1" stNinetyNine ⟨2026, 3, 20⟩).2 =
      some (.d tenantMarch.billingEnd) ∧
    Date.le ⟨2026, 3, 5⟩
      (rolledTenant ⟨2026, 3, 5⟩ ⟨2026, 4, 5⟩ ⟨2026, 3, 5⟩ tenantExpiredFeb).billingEnd :=
  ⟨c6_amended.1 stNinetyNine "t1" tenantMarch ⟨2026, 3, 20⟩ rfl rfl,
   c6_amended.2 stExpiredFeb
     (stateOf (checkAndResetUsage ⟨2026, 3, 5⟩ "t1" stExpiredFeb)) "k1"
     ⟨2026, 3, 5⟩
     (rolledTenant ⟨2026, 3, 5⟩ ⟨2026, 4, 5⟩ ⟨2026, 3, 5⟩ tenantExpiredFeb) rfl⟩

/-- C7 counterexample: at the boundary instant `now == cycle_end`
(2025-05-10) `check_and_reset_usage` is a no-op — the roll condition is the
strict `now > billing_end` — so immediately after it returns the claimed
invariant `now < cycle_end` is false and the window was not rolled forward. -/
theorem c7_counterexample :
    checkAndResetUsage ⟨2025, 5, 10⟩ "t1" stBoundary = .ok stBoundary ∧
    tenantBoundary.billingEnd = ⟨2025, 5, 10⟩ ∧
    ¬ Date.lt ⟨2025, 5, 10⟩ tenantBoundary.billingEnd := by
  decide

/-- C7 (amended): for every tenant with `cycle_start <= now`, after a
`reconcile` call that returns normally the window satisfies
`cycle_start <= now <= cycle_end`; the window is rolled forward only when
`now > cycle_end` strictly, so the boundary `now == cycle_end` is kept, not
rolled. -/
theorem c7_amended (st st' : State) (tid : String) (t t' : Tenant) (now : Date)
    (hT : getTenant st tid = some t) (hs : Date.le t.billingStart now)
    (hok : checkAndResetUsage now tid st = .ok st')
    (hT' : getTenant st' tid = some t') :
    Date.le t'.billingStart now ∧ Date.le now t'.billingEnd := by
  by_cases hexp : Date.lt t.billingEnd now
  · cases hadv : nextBillingDate now t.billingCycle with
    | none =>
      rw [checkAndReset_raise now tid st t hT hexp hadv] at hok
      cases hok
    | some ne =>
      rw [checkAndReset_roll now tid st t ne hT hexp hadv] at hok
      cases hok
      have hg : getTenant (pruneOldLogs tid now
          (updateTenants tid (rolledTenant now ne now)
            (pushHistory (archivedRecord st.nextId tid t
              (cycleUsage st tid (periodKey t.billingStart)) now) st))) tid =
          some (rolledTenant now ne now t) := by
        rw [getTenant_pruneOldLogs]
        exact getTenant_updateTenants _ tid _ t (fun u => rfl)
          (by rw [getTenant_pushHistory]; exact hT)
      have h2 := hg.symm.trans hT'
      injection h2 with h2
      subst h2
      exact ⟨dateLe_refl now,
        dateLe_of_lt now ne (lt_nextBillingDate now t.billingCycle ne hadv)⟩
  · rw [checkAndReset_noop now tid st t hT hexp] at hok
    cases hok
    have h2 := hT.symm.trans hT'
    injection h2 with h2
    subst h2
    exact ⟨hs, hexp⟩

/-- C7 witness: the amended theorem applied to the stale store. -/
theorem c7_amended_witness :
    Date.le (rolledTenant ⟨2025, 4, 20⟩ ⟨2025, 5, 20⟩ ⟨2025, 4, 20⟩
      tenantStale).billingStart ⟨2025, 4, 20⟩ ∧
    Date.le ⟨2025, 4, 20⟩ (rolledTenant ⟨2025, 4, 20⟩ ⟨2025, 5, 20⟩ ⟨2025, 4, 20⟩
      tenantStale).billingEnd :=
  c7_amended stStale (stateOf (checkAndResetUsage ⟨2025, 4, 20⟩ "t1" stStale))
    "t1" tenantStale
    (rolledTenant ⟨2025, 4, 20⟩ ⟨2025, 5, 20⟩ ⟨2025, 4, 20⟩ tenantStale)
    ⟨2025, 4, 20⟩ rfl (by decide) rfl rfl

/-- C8 (confirmed): for every tenant and period, `calculate_overage_charges`
returns the zeroed structure (not an error) when usage is within the limit
(overage `max(0, usage - limit)` is then 0), and otherwise the full
structure with `overage = usage - limit`,
`blocks = (overage + 99) / 100 = ceil(overage / 100)` (characterised below
by `overage <= 100 * blocks < overage + 100`, stated via `blocks - 1`), and
`total = blocks * plan.overage_rate`. -/
theorem c8_confirmed (st : State) (tid : String) (t : Tenant) (p : Plan)
    (cyc : Option (Nat × Nat)) (now : Date)
    (hT : getTenant st tid = some t)
    (hp : st.plans.find? (fun q => decide (q.id = t.planType)) = some p) :
    (cycleUsage st tid (cyc.getD (currentBillingCycle now)) ≤ t.rateLimit →
      calcOverageCharges st tid cyc now = [("overage", .n 0), ("charge", .n 0)]) ∧
    (t.rateLimit < cycleUsage st tid (cyc.getD (currentBillingCycle now)) →
      calcOverageCharges st tid cyc now =
        [("usage", .n (cycleUsage st tid (cyc.getD (currentBillingCycle now)))),
         ("limit", .n t.rateLimit),
         ("overage", .n (cycleUsage st tid (cyc.getD (currentBillingCycle now)) -
            t.rateLimit)),
         ("overage_blocks", .n ((cycleUsage st tid (cyc.getD (currentBillingCycle now)) -
            t.rateLimit + 99) / 100)),
         ("rate_per_block", .n p.overageRate),
         ("total_charge", .n (((cycleUsage st tid (cyc.getD (currentBillingCycle now)) -
            t.rateLimit + 99) / 100) * p.overageRate))] ∧
      cycleUsage st tid (cyc.getD (currentBillingCycle now)) - t.rateLimit ≤
        100 * ((cycleUsage st tid (cyc.getD (currentBillingCycle now)) -
          t.rateLimit + 99) / 100) ∧
      100 * ((cycleUsage st tid (cyc.getD (currentBillingCycle now)) -
          t.rateLimit + 99) / 100 - 1) <
        cycleUsage st tid (cyc.getD (currentBillingCycle now)) - t.rateLimit) := by
  constructor
  · intro h
    unfold calcOverageCharges
    rw [hT]
    simp only [if_pos h]
  · intro h
    unfold calcOverageCharges
    rw [hT]
    simp only [if_neg (not_le.mpr h), hp]
    refine ⟨by simp, by omega, by omega⟩

set_option maxRecDepth 4000 in
/-- C8 witness: usage 250, limit 100, overage_rate 5 (the `pro` plan) gives
overage 150, 2 blocks, total charge 10, via the confirmed theorem. -/
theorem c8_confirmed_witness :
    calcOverageCharges stOverage "t1" none ⟨2026, 3, 20⟩ =
      [("usage", .n 250), ("limit", .n 100), ("overage", .n 150),
       ("overage_blocks", .n 2), ("rate_per_block", .n 5),
       ("total_charge", .n 10)] := by
  have h := (c8_confirmed stOverage "t1" tenantPro
    { id := "pro", name := "Pro", rateLimit := 1000, priceMonthly := 29,
      priceYearly := 290, overageRate := 5 }
    none ⟨2026, 3, 20⟩ rfl rfl).2 (by decide)
  rw [h.1]
  decide

/-- C9 (confirmed): for every valid cycle-start date, the monthly advance of
`get_next_billing_date` moves to the successor month (wrapping December to
January of the next year) with the day clamped by
`min(start.day, last_day_of_target_month)`; in particular Jan 31 lands on
Feb 28 in a non-leap year and Feb 29 in a leap year, and Mar 31 (a 31st
whose successor month has 30 days) lands on Apr 30. -/
theorem c9_confirmed (d : Date) (hv : ValidDate d) :
    (d.month = 12 → nextBillingDate d "monthly" =
      some ⟨d.year + 1, 1, min d.day (daysInMonth (d.year + 1) 1)⟩) ∧
    (d.month < 12 → nextBillingDate d "monthly" =
      some ⟨d.year, d.month + 1, min d.day (daysInMonth d.year (d.month + 1))⟩) ∧
    nextBillingDate ⟨2025, 1, 31⟩ "monthly" = some ⟨2025, 2, 28⟩ ∧
    nextBillingDate ⟨2024, 1, 31⟩ "monthly" = some ⟨2024, 2, 29⟩ ∧
    nextBillingDate ⟨2025, 3, 31⟩ "monthly" = some ⟨2025, 4, 30⟩ := by
  obtain ⟨h1, h2, h3, h4⟩ := hv
  refine ⟨?_, ?_, by decide, by decide, by decide⟩
  · intro hm
    unfold nextBillingDate
    have h12 : d.month + 1 > 12 := by omega
    have hd : 1 ≤ min d.day (daysInMonth (d.year + 1) 1) := by
      have := daysInMonth_pos (d.year + 1) 1
      omega
    simp [if_pos h12, hd]
  · intro hm
    unfold nextBillingDate
    have h12 : ¬ (d.month + 1 > 12) := by omega
    have hd : 1 ≤ min d.day (daysInMonth d.year (d.month + 1)) := by
      have := daysInMonth_pos d.year (d.month + 1)
      omega
    simp [if_neg h12, hd]

/-- C9 witness: the general clamp applied to the valid date Jan 31, 2025. -/
theorem c9_confirmed_witness :
    ValidDate ⟨2025, 1, 31⟩ ∧
    nextBillingDate ⟨2025, 1, 31⟩ "monthly" =
      some ⟨2025, 1 + 1, min 31 (daysInMonth 2025 (1 + 1))⟩ :=
  ⟨by decide, (c9_confirmed ⟨2025, 1, 31⟩ (by decide)).2.1 (by decide)⟩

/-- C10 (confirmed): the yearly advance `start.replace(year + 1)` raises
`ValueError` (modelled as `none`) exactly on February 29 — which only
exists in a leap year, whose successor year is never leap — and for every
other valid start date returns the same calendar date one year later. -/
theorem c10_confirmed (d : Date) (hv : ValidDate d) :
    (d.month = 2 ∧ d.day = 29 → nextBillingDate d "yearly" = none) ∧
    (¬ (d.month = 2 ∧ d.day = 29) → nextBillingDate d "yearly" =
      some ⟨d.year + 1, d.month, d.day⟩) := by
  obtain ⟨hm1, hm2, hd1, hd4⟩ := hv
  constructor
  · rintro ⟨h2, h29⟩
    rw [h2] at hd4
    have hleap : isLeap d.year := by
      by_contra hnl
      rw [daysInMonth_feb, if_neg hnl] at hd4
      omega
    have hnl1 : ¬ isLeap (d.year + 1) := by
      unfold isLeap at *
      omega
    have hfeb : daysInMonth (d.year + 1) d.month = 28 := by
      rw [h2, daysInMonth_feb, if_neg hnl1]
    unfold nextBillingDate
    rw [if_neg (by decide : ¬ ("yearly" = "monthly"))]
    rw [if_neg (by rw [hfeb]; omega)]
  · intro hne
    have hda : d.day ≤ daysInMonth (d.year + 1) d.month := by
      by_cases h2 : d.month = 2
      · have hd29 : d.day ≠ 29 := fun hh => hne ⟨h2, hh⟩
        rw [h2] at hd4 ⊢
        rw [daysInMonth_feb] at hd4 ⊢
        split at hd4 <;> split <;> omega
      · have heq : daysInMonth (d.year + 1) d.month = daysInMonth d.year d.month := by
          unfold daysInMonth
          rw [if_neg h2, if_neg h2]
        omega
    unfold nextBillingDate
    rw [if_neg (by decide : ¬ ("yearly" = "monthly"))]
    rw [if_pos ⟨hm1, hm2, hd1, hda⟩]

/-- C10 witness: February 29, 2028 raises; March 15, 2027 advances to
March 15, 2028. -/
theorem c10_confirmed_witness :
    ValidDate ⟨2028, 2, 29⟩ ∧ nextBillingDate ⟨2028, 2, 29⟩ "yearly" = none ∧
    nextBillingDate ⟨2027, 3, 15⟩ "yearly" = some ⟨2027 + 1, 3, 15⟩ :=
  ⟨by decide, (c10_confirmed ⟨2028, 2, 29⟩ (by decide)).1 ⟨rfl, rfl⟩,
   (c10_confirmed ⟨2027, 3, 15⟩ (by decide)).2 (by simp)⟩

end AutoSeo
